import Mathlib

/-!
# Verification of the PDF-to-HTML reconstructor (`pdf_to_webpage.py`)

Shallow embedding of the text-processing, table-detection, image-classification
and assembly routines of `PDFToHTMLConverter`, together with proofs and
refutations of the specification claims.

Modelling conventions:
* Python strings are `List Char` (ASCII model of the regex classes `\w`, `\s`,
  `[a-z]`, ...; all concrete inputs below are ASCII).
* Python floats are `ℚ` (in particular the literal `0.3` is modelled by `3/10`).
* Python's stable `sorted` with a key is modelled by a stable insertion sort
  by the corresponding totally-preordered boolean comparison.
* Regex substitutions are implemented as explicit left-to-right scanners; the
  scanners carry a fuel argument equal to the input length so that they are
  structurally recursive (each step consumes at least one input character, so
  the fuel never runs out).
-/

attribute [local semireducible] Rat.add Rat.sub Rat.mul Rat.inv Rat.ofScientific

/-- Python's `\s` / `str.strip()` whitespace characters (ASCII model). -/
def isPySpace (c : Char) : Bool :=
  c == ' ' || c == '\t' || c == '\n' || c == '\r' || c == '\x0b' || c == '\x0c'

/-- Python's regex `\w` word character (ASCII model: `[A-Za-z0-9_]`). -/
def isWordChar (c : Char) : Bool :=
  c.isAlphanum || c == '_'

/-- Left strip, as in Python `str.lstrip()`. -/
def pyStripLeft (l : List Char) : List Char := l.dropWhile isPySpace

/-- Right strip, as in Python `str.rstrip()`. -/
def pyStripRight (l : List Char) : List Char := (l.reverse.dropWhile isPySpace).reverse

/-- Both-sides strip, as in Python `str.strip()`. -/
def pyStrip (l : List Char) : List Char := pyStripLeft (pyStripRight l)

/-- Substring containment, as in Python's `needle in haystack`. -/
def containsSub (needle hay : List Char) : Bool :=
  if needle.isPrefixOf hay then true
  else match hay with
    | [] => false
    | _ :: t => containsSub needle t

/-- Number of (possibly overlapping) occurrences of `needle` in `hay`;
used to state facts about generated HTML. -/
def countSub (needle hay : List Char) : ℕ :=
  match hay with
  | [] => 0
  | _ :: t => (if needle.isPrefixOf hay then 1 else 0) + countSub needle t

/-- Python `str.lower()` (ASCII model). -/
def pyLower (l : List Char) : List Char := l.map Char.toLower

/-- Number of whitespace-separated words, as in `len(text.split())`. -/
def pyWordCount (l : List Char) : ℕ := ((l.splitOnP isPySpace).filter (fun w => !w.isEmpty)).length

/-- One pass of the regex substitution `re.sub(r'(\w)-\s+([a-z])', r'\1\2', text)`:
scan left to right; at a match emit the word character and the lowercase
continuation, dropping the hyphen and the whitespace run, and resume scanning
after the consumed continuation character.  Fueled structural recursion. -/
def hyphenJoinGo : ℕ → List Char → List Char
  | 0, l => l
  | _ + 1, [] => []
  | fuel + 1, c :: rest =>
    if isWordChar c then
      match rest with
      | '-' :: rest2 =>
        let sp := rest2.takeWhile isPySpace
        let rest3 := rest2.dropWhile isPySpace
        if sp.isEmpty then c :: hyphenJoinGo fuel rest
        else
          match rest3 with
          | d :: rest4 =>
            if d.isLower then c :: d :: hyphenJoinGo fuel rest4
            else c :: hyphenJoinGo fuel rest
          | [] => c :: hyphenJoinGo fuel rest
      | _ => c :: hyphenJoinGo fuel rest
    else c :: hyphenJoinGo fuel rest

/-- The substitution `re.sub(r'(\w)-\s+([a-z])', r'\1\2', text)`. -/
def hyphenJoin (l : List Char) : List Char := hyphenJoinGo l.length l

/-- The substitution `re.sub(r'\s{2,}', ' ', text)`: every run of two or more
whitespace characters becomes a single space, single whitespace characters are
kept as they are. -/
def collapseSpacesGo : ℕ → List Char → List Char
  | 0, l => l
  | _ + 1, [] => []
  | fuel + 1, c :: rest =>
    if isPySpace c then
      match rest with
      | d :: _ =>
        if isPySpace d then ' ' :: collapseSpacesGo fuel (rest.dropWhile isPySpace)
        else c :: collapseSpacesGo fuel rest
      | [] => [c]
    else c :: collapseSpacesGo fuel rest

/-- `re.sub(r'\s{2,}', ' ', text)`. -/
def collapseSpaces (l : List Char) : List Char := collapseSpacesGo l.length l

/-- `PDFToHTMLConverter._clean_text_fragments`: remove soft hyphens, join
hyphenated breaks followed by a lowercase continuation, collapse multiple
spaces, strip. -/
def clean_text_fragments (text : List Char) : List Char :=
  if text.isEmpty then text
  else pyStrip (collapseSpaces (hyphenJoin (text.filter (fun c => !(c == '­')))))

/-- `re.search(r'[<class>]\s*$', a)` for a class of punctuation characters:
the last non-whitespace character exists and lies in the class. -/
def searchEndClass (a : List Char) (cls : List Char) : Bool :=
  match (pyStripRight a).getLast? with
  | some c => cls.contains c
  | none => false

/-- Characters matched by the single-character bullet alternatives
`•|\-|\–|\—|\*|▪|◦`. -/
def bulletMarkerChars : List Char := ['•', '-', '–', '—', '*', '▪', '◦']

/-- Roman-numeral letters `[ivxlcdm]` under `re.IGNORECASE`. -/
def isRomanChar (c : Char) : Bool :=
  ['i', 'v', 'x', 'l', 'c', 'd', 'm', 'I', 'V', 'X', 'L', 'C', 'D', 'M'].contains c

/-- `re.match(r'^(•|\-|\–|\—|\*|▪|◦|\d+[\)\.]|[ivxlcdm]+\.|[A-Z]\))\s+', b, re.IGNORECASE)`:
does `b` start with a bullet or enumeration marker followed by whitespace?
(Under `re.IGNORECASE` the class `[A-Z]` matches any ASCII letter.) -/
def bullet_like (b : List Char) : Bool :=
  let single : Bool :=
    match b with
    | c :: d :: _ => bulletMarkerChars.contains c && isPySpace d
    | _ => false
  let digitMarker : Bool :=
    let ds := b.takeWhile Char.isDigit
    !ds.isEmpty &&
      (match b.drop ds.length with
       | c :: d :: _ => (c == ')' || c == '.') && isPySpace d
       | _ => false)
  let romanMarker : Bool :=
    let rs := b.takeWhile isRomanChar
    !rs.isEmpty &&
      (match b.drop rs.length with
       | '.' :: d :: _ => isPySpace d
       | _ => false)
  let letterParen : Bool :=
    match b with
    | c :: ')' :: d :: _ => c.isAlpha && isPySpace d
    | _ => false
  single || digitMarker || romanMarker || letterParen

/-- `re.search(r'(?<![A-Za-z])[A-HJ-Za-hj-z]$', a)`: `a` ends with a letter
other than `I`/`i` that is not preceded by another letter. -/
def singleLetterEnd (a : List Char) : Bool :=
  match a.reverse with
  | c :: rest =>
    (c.isAlpha && !(c == 'I') && !(c == 'i')) &&
      (match rest with
       | [] => true
       | p :: _ => !p.isAlpha)
  | [] => false

/-- `re.match(r'^[a-z]{2,}', b)`. -/
def lowerTwoStart (b : List Char) : Bool :=
  match b with
  | c :: d :: _ => c.isLower && d.isLower
  | _ => false

/-- `PDFToHTMLConverter._should_merge_paragraphs`. -/
def should_merge_paragraphs (prev_text next_text : List Char) : Bool :=
  if prev_text.isEmpty || next_text.isEmpty then false
  else
    let a := pyStripRight prev_text
    let b := pyStripLeft next_text
    if bullet_like b then false
    else if searchEndClass a ['.', '!', '?'] &&
            (match b with | c :: _ => c.isUpper | [] => false) then false
    else if a.getLast? == some '-' then true
    else if searchEndClass a [',', ':', ';'] then true
    else if (match b with | c :: _ => c.isLower | [] => false) then true
    else if singleLetterEnd a && lowerTwoStart b then true
    else false

/-- `PDFToHTMLConverter._merge_paragraph_pair`. -/
def merge_paragraph_pair (prev_text next_text : List Char) : List Char :=
  let a := pyStripRight prev_text
  let b := pyStripLeft next_text
  let merged :=
    if a.getLast? == some '-' then a.dropLast ++ b
    else if singleLetterEnd a && lowerTwoStart b then a ++ b
    else a ++ [' '] ++ b
  clean_text_fragments merged

/-- Semantic roles assigned by `classify_text_type`. -/
inductive TextRole
  | main_title
  | section_header
  | subsection_header
  | bold_header
  | paragraph
deriving DecidableEq

/-- One classified line of the content structure (the dicts produced by
`_extract_page_lines_with_positions`). -/
structure ContentItem where
  text : List Char
  page : ℕ
  role : TextRole
  font_size : ℚ
  is_bold : Bool
  x0 : ℚ
  y0 : ℚ
deriving DecidableEq

/-- The accumulation loop of `PDFToHTMLConverter.reflow_content`: clean each
item's text; merge an adjacent pair of same-page paragraph items when
`_should_merge_paragraphs` says so. `acc` is the reversed `reflowed` list. -/
def reflowGo (acc : List ContentItem) : List ContentItem → List ContentItem
  | [] => acc.reverse
  | it :: rest =>
    let it' : ContentItem := { it with text := clean_text_fragments it.text }
    match acc with
    | prev :: acc' =>
      if it'.role = TextRole.paragraph ∧ prev.role = TextRole.paragraph ∧ it'.page = prev.page then
        if should_merge_paragraphs prev.text it'.text then
          reflowGo ({ prev with text := merge_paragraph_pair prev.text it'.text } :: acc') rest
        else reflowGo (it' :: prev :: acc') rest
      else reflowGo (it' :: prev :: acc') rest
    | [] => reflowGo [it'] rest

/-- `PDFToHTMLConverter.reflow_content`. -/
def reflow_content (content_structure : List ContentItem) : List ContentItem :=
  if content_structure.isEmpty then content_structure
  else reflowGo [] content_structure

/-- Keyword set of the `main_title` rule in `classify_text_type`. -/
def mainTitleKeywords : List (List Char) :=
  ["Technical Specifications".data, "INTRODUCTION".data,
   "SYSTEM OVERVIEW".data, "PROCESS FLOWCHART".data]

/-- `re.match(r'^\d+\.?\d*\s+[A-Z\s]+$', text)`. -/
def matchNumberedUpper (t : List Char) : Bool :=
  let d1 := t.takeWhile Char.isDigit
  let r1 := t.drop d1.length
  if d1.isEmpty then false
  else
    let r2 := match r1 with | '.' :: tl => tl | _ => r1
    let r3 := r2.dropWhile Char.isDigit
    let sp := r3.takeWhile isPySpace
    let r4 := r3.dropWhile isPySpace
    !sp.isEmpty && !r4.isEmpty && r4.all (fun c => c.isUpper || isPySpace c)

/-- `re.match(r'^\d+\.\d+\s+[A-Za-z\s]+$', text)`. -/
def matchTwoPartLetters (t : List Char) : Bool :=
  let d1 := t.takeWhile Char.isDigit
  let r1 := t.drop d1.length
  if d1.isEmpty then false
  else
    match r1 with
    | '.' :: r2 =>
      let d2 := r2.takeWhile Char.isDigit
      let r3 := r2.drop d2.length
      if d2.isEmpty then false
      else
        let sp := r3.takeWhile isPySpace
        let r4 := r3.dropWhile isPySpace
        !sp.isEmpty && !r4.isEmpty && r4.all (fun c => c.isAlpha || isPySpace c)
    | _ => false

/-- `re.match(r'^\d+\.\d+\.\d+\s+[A-Za-z\s]+$', text)`. -/
def matchThreePartLetters (t : List Char) : Bool :=
  let d1 := t.takeWhile Char.isDigit
  let r1 := t.drop d1.length
  if d1.isEmpty then false
  else
    match r1 with
    | '.' :: r2 =>
      let d2 := r2.takeWhile Char.isDigit
      let r3 := r2.drop d2.length
      if d2.isEmpty then false
      else
        match r3 with
        | '.' :: r4 =>
          let d3 := r4.takeWhile Char.isDigit
          let r5 := r4.drop d3.length
          if d3.isEmpty then false
          else
            let sp := r5.takeWhile isPySpace
            let r6 := r5.dropWhile isPySpace
            !sp.isEmpty && !r6.isEmpty && r6.all (fun c => c.isAlpha || isPySpace c)
        | _ => false
    | _ => false

/-- `PDFToHTMLConverter.classify_text_type`. -/
def classify_text_type (text : List Char) (font_size : ℚ) (is_bold : Bool) : TextRole :=
  if decide (16 ≤ font_size) ||
     (is_bold && mainTitleKeywords.any (fun k => containsSub k text)) then
    TextRole.main_title
  else if matchNumberedUpper text || matchTwoPartLetters text then
    TextRole.section_header
  else if matchThreePartLetters text then
    TextRole.subsection_header
  else if is_bold && decide (text.length < 100) && !(text.getLast? == some '.') then
    TextRole.bold_header
  else
    TextRole.paragraph

/-- First-match evaluation of an ordered rule list with a default, the form in
which the specification states the classifier. -/
def applyRulesFirstMatch : List (Bool × TextRole) → TextRole → TextRole
  | [], d => d
  | (c, r) :: rest, d => if c then r else applyRulesFirstMatch rest d

/-- The classifier exactly as the specification words it: an ordered rule list
(1) main-title, (2) numbered-heading, (3) three-part numbering, (4) bold
header, evaluated top to bottom with first match winning and default
`paragraph`. -/
def classify_text_type_spec (text : List Char) (font_size : ℚ) (is_bold : Bool) : TextRole :=
  applyRulesFirstMatch
    [ (decide (16 ≤ font_size) ||
         (is_bold && mainTitleKeywords.any (fun k => containsSub k text)),
       TextRole.main_title),
      (matchNumberedUpper text || matchTwoPartLetters text, TextRole.section_header),
      (matchThreePartLetters text, TextRole.subsection_header),
      (is_bold && decide (text.length < 100) && !(text.getLast? == some '.'),
       TextRole.bold_header) ]
    TextRole.paragraph

/-- Stable insertion of `a` before the first element `b` with `le a b = false`…
auxiliary for the model of Python's stable `sorted`. -/
def pyInsertLe (le : α → α → Bool) (a : α) : List α → List α
  | [] => [a]
  | b :: t => if le a b then a :: b :: t else b :: pyInsertLe le a t

/-- Python's stable `sorted` with a key, modelled as insertion sort by the
(total, reflexive, transitive) boolean comparison `le` on keys: for such a
comparator the stable sorted permutation is unique, and this insertion sort
produces it. -/
def pySortBy (le : α → α → Bool) : List α → List α
  | [] => []
  | a :: t => pyInsertLe le a (pySortBy le t)

/-- Comparison by the key `(y0, x0)` used for the baseline ordering in
`_reorder_lines_by_columns`. -/
def itemLeYX (a b : ContentItem) : Bool :=
  decide (a.y0 < b.y0 ∨ (a.y0 = b.y0 ∧ a.x0 ≤ b.x0))

/-- Python `round(q, 1)` (round half to even, on the rational model of floats). -/
def pyRound1 (q : ℚ) : ℚ :=
  let n := q * 10
  let f : ℤ := n.floor
  let r := n - f
  let k : ℤ :=
    if r < 1/2 then f
    else if 1/2 < r then f + 1
    else if f % 2 = 0 then f else f + 1
  (k : ℚ) / 10

/-- Is the line paragraph-like for the column heuristic
(`it['type'] in ('paragraph', 'bold_header')`)? -/
def paragraphLike (it : ContentItem) : Bool :=
  decide (it.role = TextRole.paragraph ∨ it.role = TextRole.bold_header)

/-- The list `para_x` of `_reorder_lines_by_columns`: rounded left-x positions
of the paragraph-like lines of the baseline ordering (with multiplicity). -/
def para_x_list (lines : List ContentItem) : List ℚ :=
  ((pySortBy itemLeYX lines).filter paragraphLike).map (fun it => pyRound1 it.x0)

/-- `max(gaps, key=lambda g: g[0])`: first maximal element by first component. -/
def maxByFst (g : ℚ × ℕ) (rest : List (ℚ × ℕ)) : ℚ × ℕ :=
  rest.foldl (fun best x => if best.1 < x.1 then x else best) g

/-- Column index assigned to a line by the `__col` marking step. -/
def colOf (threshold : ℚ) (it : ContentItem) : ℕ :=
  if it.x0 < threshold then 0 else 1

/-- Comparison by the key `(col, y0, x0)` used for the final two-column ordering. -/
def itemLeColYX (threshold : ℚ) (a b : ContentItem) : Bool :=
  decide (colOf threshold a < colOf threshold b ∨
    (colOf threshold a = colOf threshold b ∧
      (a.y0 < b.y0 ∨ (a.y0 = b.y0 ∧ a.x0 ≤ b.x0))))

/-- `PDFToHTMLConverter._reorder_lines_by_columns`. -/
def reorder_lines_by_columns (lines : List ContentItem) : List ContentItem :=
  if lines.isEmpty then lines
  else
    let baseline := pySortBy itemLeYX lines
    let para_x := para_x_list lines
    if para_x.length < 8 then baseline
    else
      let para_x_sorted := pySortBy (fun a b => decide (a ≤ b)) para_x.dedup
      let gaps := (List.range' 1 (para_x_sorted.length - 1)).map
        (fun i => (para_x_sorted.getD i 0 - para_x_sorted.getD (i - 1) 0, i))
      match gaps with
      | [] => baseline
      | g :: grest =>
        let lg := maxByFst g grest
        if lg.1 < 40 then baseline
        else
          let threshold := (para_x_sorted.getD (lg.2 - 1) 0 + para_x_sorted.getD lg.2 0) / 2
          pySortBy (itemLeColYX threshold) baseline

/-- A paragraph line with the given position, used in column-reordering examples. -/
def mkParaLine (x y : ℚ) : ContentItem :=
  ⟨"a".data, 0, TextRole.paragraph, 12, false, x, y⟩

/-- Eight paragraph lines alternating between two left-x positions (0 and 100),
interleaved top to bottom: only 2 distinct left-x positions, but 8 positions
counted with multiplicity. -/
def c1_ex_lines : List ContentItem :=
  [mkParaLine 0 0, mkParaLine 100 10, mkParaLine 0 20, mkParaLine 100 30,
   mkParaLine 0 40, mkParaLine 100 50, mkParaLine 0 60, mkParaLine 100 70]

/-- A two-line single-column page. -/
def c1_small_lines : List ContentItem := [mkParaLine 10 0, mkParaLine 10 12]

/-- Content items for the reflow idempotency counterexample: a paragraph line
consisting of a bare hyphen absorbs its successor in the first pass, changing
its leading text and enabling a second-pass merge. -/
def c6_ex_lines : List ContentItem :=
  [⟨"Hello".data, 0, TextRole.paragraph, 12, false, 72, 100⟩,
   ⟨"-".data, 0, TextRole.paragraph, 12, false, 72, 112⟩,
   ⟨"world".data, 0, TextRole.paragraph, 12, false, 72, 124⟩]

/-- The two-line hyphenation scenario of the specification. -/
def c7_ex_lines : List ContentItem :=
  [⟨"Integration-".data, 0, TextRole.paragraph, 12, false, 72, 100⟩,
   ⟨"testing is required.".data, 0, TextRole.paragraph, 12, false, 72, 112⟩]

/-- One extracted image record of `extract_images` (the fields relevant to the
watermark post-process: content hash, mean alpha, area ratio, and the flag,
which the extraction loop always initialises to `False`). -/
structure TempImage where
  page : ℕ
  sha1 : List Char
  alpha_mean : Option ℚ
  area_ratio : ℚ
  is_watermark : Bool
deriving DecidableEq

/-- `hash_counts[sha]`: the extraction loop increments the counter once per
successfully extracted image, so the count equals the number of records in
`temp_images` carrying that hash. -/
def hash_count (imgs : List TempImage) (s : List Char) : ℕ :=
  (imgs.filter (fun i => decide (i.sha1 = s))).length

/-- The body of the watermark post-process loop of `extract_images` for one
image record: `repeated_enough = repeat >= 3 and repeat >= max(3, int(0.3 *
num_pages))` (with `int(0.3 * n)` modelled by the floor `3 * n / 10`),
`transparent_like = alpha_mean is not None and alpha_mean < 220`,
`medium_area = 0.03 <= area_ratio <= 0.6`; the flag is set when
`repeated_enough and (transparent_like or medium_area)`. -/
def flag_watermark_one (num_pages : ℕ) (imgs : List TempImage) (img : TempImage) :
    TempImage :=
  let rep := hash_count imgs img.sha1
  let repeated_enough := decide (3 ≤ rep) && decide (max 3 (3 * num_pages / 10) ≤ rep)
  let transparent_like :=
    match img.alpha_mean with
    | some a => decide (a < 220)
    | none => false
  let medium_area := decide ((3/100 : ℚ) ≤ img.area_ratio ∧ img.area_ratio ≤ 6/10)
  if repeated_enough && (transparent_like || medium_area) then
    { img with is_watermark := true }
  else img

/-- The watermark post-process of `extract_images` over the whole image
population. -/
def flag_watermarks (num_pages : ℕ) (imgs : List TempImage) : List TempImage :=
  imgs.map (flag_watermark_one num_pages imgs)

/-- The scenario population: an image whose content hash recurs on 5 of 10
pages, with mean alpha 180 and area ratio 0.1. -/
def c5_ex_images : List TempImage :=
  [⟨0, "w".data, some 180, 1/10, false⟩, ⟨1, "w".data, some 180, 1/10, false⟩,
   ⟨3, "w".data, some 180, 1/10, false⟩, ⟨5, "w".data, some 180, 1/10, false⟩,
   ⟨7, "w".data, some 180, 1/10, false⟩]

/-- Table record appended to `self.tables` by the detectors. The mid-loop
appends of `find_technical_tables` and the appends of the two grid detectors
carry no `y0` key; `table.get('y0', None)` is modelled by the `Option`. -/
inductive TType
  | stakeholder
  | technical
  | grid
deriving DecidableEq

structure TableRec where
  page : ℕ
  data : List (List (List Char))
  ttype : TType
  title : List Char
  y0 : Option ℚ
deriving DecidableEq

/-- The outcome of running one table-detection strategy on one page: the
tables it would append, or the exception it raises.  `detect_tables_advanced`
is embedded over these outcomes because the claim quantifies over the
possibility of each strategy raising. -/
structure PageStrategyRuns where
  stakeholder : Except String (List TableRec)
  technical : Except String (List TableRec)
  grid : Except String (List TableRec)
  textgrid : Except String (List TableRec)

/-- The per-page body of `detect_tables_advanced`: `find_stakeholder_tables`
and `find_technical_tables` are called bare, so their exceptions propagate
(`find_requirements_tables` is `pass` and contributes nothing);
`_detect_tables_from_drawing_lines` and `_detect_tables_from_text_grid` are
each wrapped in `try/except`, an exception being logged and the strategy
contributing no tables. -/
def run_page_detection (p : PageStrategyRuns) : Except String (List TableRec) :=
  match p.stakeholder with
  | .error e => .error e
  | .ok t1 =>
    match p.technical with
    | .error e => .error e
    | .ok t2 =>
      let t3 := match p.grid with | .ok ts => ts | .error _ => []
      let t4 := match p.textgrid with | .ok ts => ts | .error _ => []
      .ok (t1 ++ t2 ++ t3 ++ t4)

/-- `PDFToHTMLConverter.detect_tables_advanced`: the page loop; an exception
escaping a page body aborts the remaining pages. -/
def detect_tables_advanced : List PageStrategyRuns → Except String (List TableRec)
  | [] => .ok []
  | p :: rest =>
    match run_page_detection p with
    | .error e => .error e
    | .ok ts =>
      match detect_tables_advanced rest with
      | .error e => .error e
      | .ok ts' => .ok (ts ++ ts')

/-- Is the computation exception-free? -/
def exceptIsOk : Except String (List TableRec) → Bool
  | .ok _ => true
  | .error _ => false

/-- Replace a failing grid / text-grid strategy outcome by a successful run
producing no tables. -/
def maskGridErrors (p : PageStrategyRuns) : PageStrategyRuns :=
  { p with
    grid := match p.grid with | .ok t => Except.ok t | .error _ => Except.ok []
    textgrid := match p.textgrid with | .ok t => Except.ok t | .error _ => Except.ok [] }

/-- A page on which the keyword-pattern stakeholder strategy raises. -/
def c2_bad_page : PageStrategyRuns :=
  ⟨.error "stakeholder failure", .ok [], .ok [], .ok []⟩

/-- A later page on which the vector-grid strategy would find a table. -/
def c2_ok_page : PageStrategyRuns :=
  ⟨.ok [], .ok [], .ok [⟨1, [["x".data]] , TType.grid, "Detected Table".data, none⟩], .ok []⟩

/-- A page with both keyword strategies succeeding and both grid strategies
failing. -/
def c2_grid_fail_page : PageStrategyRuns :=
  ⟨.ok [], .ok [], .error "grid failure", .error "textgrid failure"⟩

/-- A text span of `page.get_text("dict")`: text plus an optional bounding box
(`None` models a missing `bbox` key; `some []`, like Python's empty sequence,
is falsy for the `span.get("bbox")` checks). -/
structure BSpan where
  text : List Char
  bbox : Option (List ℚ)
deriving DecidableEq

structure BLine where
  spans : List BSpan
deriving DecidableEq

/-- A block of `page.get_text("dict")["blocks"]`; `lines = none` models an
image block without a `"lines"` key. -/
structure Block where
  lines : Option (List BLine)
deriving DecidableEq

/-- The lines visited by `for block in blocks: if "lines" in block: for line in
block["lines"]`, in order. -/
def allLines (blocks : List Block) : List BLine :=
  blocks.flatMap (fun b => match b.lines with | some ls => ls | none => [])

/-- `line_text`: the concatenation of each span's stripped text plus a space,
stripped at the end. -/
def lineText (spans : List BSpan) : List Char :=
  pyStrip (spans.foldl (fun t s => t ++ pyStrip s.text ++ [' ']) [])

/-- `first_span_y`: the first span whose (truthy) bbox yields `bbox[1]`; an
`IndexError` on a too-short bbox is swallowed and the scan continues. -/
def lineFirstSpanY (spans : List BSpan) : Option ℚ :=
  spans.foldl
    (fun acc s =>
      match acc with
      | some v => some v
      | none =>
        match s.bbox with
        | some bs => if bs.isEmpty then none else if 2 ≤ bs.length then some (bs.getD 1 0) else none
        | none => none)
    none

/-- `re.split(r'\s{3,}', text)`: pieces separated by maximal whitespace runs
of length at least three (shorter runs stay inside their piece).  Fueled
scanner; the accumulator holds the current piece reversed. -/
def splitWsRuns3Go : ℕ → List Char → List Char → List (List Char)
  | 0, cur, l => [cur.reverse ++ l]
  | _ + 1, cur, [] => [cur.reverse]
  | fuel + 1, cur, c :: rest =>
    if isPySpace c then
      let run := (c :: rest).takeWhile isPySpace
      let rest' := (c :: rest).drop run.length
      if 3 ≤ run.length then cur.reverse :: splitWsRuns3Go fuel [] rest'
      else splitWsRuns3Go fuel (run.reverse ++ cur) rest'
    else splitWsRuns3Go fuel (c :: cur) rest

def splitWsRuns3 (l : List Char) : List (List Char) := splitWsRuns3Go l.length [] l

/-- The alternatives of `re.split(r'(Must-Have|Should-Have|High|Medium|Low)',
text)`, in order. -/
def priorityKeywords : List (List Char) :=
  ["Must-Have".data, "Should-Have".data, "High".data, "Medium".data, "Low".data]

/-- `re.split` with a capture group keeps the matched separators in the
result. -/
def splitKeepKeywordsGo : ℕ → List Char → List Char → List (List Char)
  | 0, cur, l => [cur.reverse ++ l]
  | _ + 1, cur, [] => [cur.reverse]
  | fuel + 1, cur, c :: rest =>
    match priorityKeywords.find? (fun k => k.isPrefixOf (c :: rest)) with
    | some k => cur.reverse :: k :: splitKeepKeywordsGo fuel [] ((c :: rest).drop k.length)
    | none => splitKeepKeywordsGo fuel (c :: cur) rest

def splitKeepKeywords (l : List Char) : List (List Char) := splitKeepKeywordsGo l.length [] l

/-- `re.split(r'[,;]\s*', text)`. -/
def splitCommaSemiGo : ℕ → List Char → List Char → List (List Char)
  | 0, cur, l => [cur.reverse ++ l]
  | _ + 1, cur, [] => [cur.reverse]
  | fuel + 1, cur, c :: rest =>
    if c == ',' || c == ';' then cur.reverse :: splitCommaSemiGo fuel [] (rest.dropWhile isPySpace)
    else splitCommaSemiGo fuel (c :: cur) rest

def splitCommaSemi (l : List Char) : List (List Char) := splitCommaSemiGo l.length [] l

/-- Python `hay.replace(needle, "")` for a nonempty needle. -/
def replaceAllGo (needle : List Char) : ℕ → List Char → List Char
  | 0, l => l
  | _ + 1, [] => []
  | fuel + 1, c :: rest =>
    if !needle.isEmpty && needle.isPrefixOf (c :: rest) then
      replaceAllGo needle fuel ((c :: rest).drop needle.length)
    else c :: replaceAllGo needle fuel rest

def replaceAll (needle hay : List Char) : List Char := replaceAllGo needle hay.length hay

/-- The long dependency-type phrases scanned by `split_table_row`. -/
def depTypePhrases : List (List Char) :=
  ["Prerequisite Features".data, "System Dependencies".data,
   "External Dependencies".data, "Integration Requirements".data]

/-- `PDFToHTMLConverter.split_table_row`. -/
def split_table_row (text : List Char) : List (List Char) :=
  let parts :=
    if containsSub "F-".data text &&
       (["must-have", "should-have", "high", "medium", "low"].map String.data).any
         (fun k => containsSub k (pyLower text)) then
      let p1 := splitWsRuns3 text
      if p1.length < 3 then
        ((splitKeepKeywords text).map pyStrip).filter (fun p => !p.isEmpty)
      else p1
    else if (["Prerequisite", "System", "External", "Integration"].map String.data).any
              (fun d => containsSub d text) then
      match depTypePhrases.find? (fun d => containsSub d text) with
      | some dep => [dep, pyStrip (replaceAll dep text)]
      | none => splitWsRuns3 text
    else
      let p := splitWsRuns3 text
      if p.length = 1 then splitCommaSemi text else p
  let cleaned := parts.map clean_text_fragments
  cleaned.filterMap (fun p =>
    if p.isEmpty then none
    else
      let s := pyStrip p
      if s.isEmpty then none else some s)

/-- `PDFToHTMLConverter.is_table_row`. -/
def is_table_row (text : List Char) : Bool :=
  containsSub "F-".data text ||
  (["Prerequisite", "System", "External", "Integration"].map String.data).any
    (fun w => containsSub w text) ||
  (["Must-Have", "Should-Have", "High", "Medium", "Low"].map String.data).any
    (fun w => containsSub w text) ||
  (["user adoption", "economic impact", "cultural preservation"].map String.data).any
    (fun w => containsSub w (pyLower text)) ||
  decide (1 < (text.filter (fun c => c == '\t')).length) ||
  decide (1 < (splitWsRuns3 text).length - 1)

/-- Python `str.isupper()` (ASCII model): at least one cased character and no
lowercase one. -/
def pyIsUpper (text : List Char) : Bool :=
  text.any Char.isAlpha && !(text.any Char.isLower)

/-- `PDFToHTMLConverter.is_section_break`. -/
def is_section_break (text : List Char) : Bool :=
  (let d := text.takeWhile Char.isDigit
   !d.isEmpty && (match text.drop d.length with | '.' :: _ => true | _ => false)) ||
  (["technical specifications", "functional requirements", "user benefits"].map String.data).any
    (fun w => containsSub w (pyLower text)) ||
  (decide (50 < text.length) && pyIsUpper text) ||
  containsSub "User Benefits:".data text || containsSub "Technical Context:".data text

/-- Loop state of `find_stakeholder_tables`. -/
structure StakeState where
  table_data : List (List (List Char))
  collecting : Bool
  header_y0 : Option ℚ

/-- One line of the `find_stakeholder_tables` loop. -/
def stakeStep (st : StakeState) (line : BLine) : StakeState :=
  let lt := lineText line.spans
  let fy := lineFirstSpanY line.spans
  if (["Stakeholder Category", "Primary Users", "Secondary Users"].map String.data).any
       (fun h => containsSub h lt) then
    let td :=
      if 2 ≤ pyWordCount lt then
        st.table_data ++
          [["Stakeholder Category".data, "Primary Users".data, "Secondary Users".data]]
      else st.table_data
    ⟨td, true, fy⟩
  else if st.collecting && !lt.isEmpty then
    if (["Cultural Producers", "Government Partners", "End Consumers", "Technology Partners"].map
          String.data).any (fun c => containsSub c lt) then
      let parts := split_table_row lt
      if 2 ≤ parts.length then { st with table_data := st.table_data ++ [parts] } else st
    else if !((["expected", "business", "impact"].map String.data).any
                (fun s => containsSub s (pyLower lt))) then
      st
    else
      { st with collecting := false }
  else st

/-- `PDFToHTMLConverter.find_stakeholder_tables`: the table appended to
`self.tables`, if any. -/
def find_stakeholder_tables (blocks : List Block) (page_num : ℕ) : Option TableRec :=
  let st := (allLines blocks).foldl stakeStep ⟨[], false, none⟩
  if !st.table_data.isEmpty && 1 < st.table_data.length then
    some ⟨page_num, st.table_data, TType.stakeholder, "Key Stakeholders and Users".data,
      st.header_y0⟩
  else none

/-- Loop state of `find_technical_tables`. -/
structure TechState where
  tables : List TableRec
  table_data : List (List (List Char))
  collecting : Bool
  header_y0 : Option ℚ

/-- One line of the `find_technical_tables` loop.  Note the mid-loop append
(on a section break) carries no `y0` key. -/
def techStep (page_num : ℕ) (st : TechState) (line : BLine) : TechState :=
  let lt := lineText line.spans
  let fy := lineFirstSpanY line.spans
  if (["Dependency Type", "Requirements"].map String.data).any (fun h => containsSub h lt) then
    { st with
      collecting := true
      header_y0 := fy
      table_data := st.table_data ++ [["Dependency Type".data, "Requirements".data]] }
  else if (["Requirement ID", "Description", "Acceptance Criteria"].map String.data).any
            (fun h => containsSub h lt) then
    let hdr :=
      if containsSub "Priority".data lt && containsSub "Complexity".data lt then
        ["Requirement ID".data, "Description".data, "Acceptance Criteria".data,
         "Priority".data, "Complexity".data]
      else ["Requirement ID".data, "Description".data, "Acceptance Criteria".data]
    { st with
      collecting := true
      header_y0 := fy
      table_data := st.table_data ++ [hdr] }
  else if (["Objective Category", "Target Metric", "Timeline"].map String.data).any
            (fun h => containsSub h lt) then
    { st with
      collecting := true
      header_y0 := fy
      table_data := st.table_data ++
        [["Objective Category".data, "Target Metric".data, "Timeline".data]] }
  else if st.collecting && !lt.isEmpty then
    if is_table_row lt then
      let parts := split_table_row lt
      if 2 ≤ parts.length then { st with table_data := st.table_data ++ [parts] } else st
    else if lt.isEmpty || is_section_break lt then
      let tabs :=
        if !st.table_data.isEmpty && 1 < st.table_data.length then
          st.tables ++
            [⟨page_num, st.table_data, TType.technical, "Technical Specifications".data, none⟩]
        else st.tables
      ⟨tabs, [], false, st.header_y0⟩
    else st
  else st

/-- `PDFToHTMLConverter.find_technical_tables`: the tables appended to
`self.tables`, in order. -/
def find_technical_tables (blocks : List Block) (page_num : ℕ) : List TableRec :=
  let st := (allLines blocks).foldl (techStep page_num) ⟨[], [], false, none⟩
  if !st.table_data.isEmpty && 1 < st.table_data.length then
    st.tables ++
      [⟨page_num, st.table_data, TType.technical, "Technical Specifications".data, st.header_y0⟩]
  else st.tables

/-- A drawing path command: operator and flattened point coordinates; the
endpoints read are `pts[0], pts[1], pts[-2], pts[-1]`. -/
structure DrawCmd where
  op : List Char
  pts : List ℚ
deriving DecidableEq

/-- One item of `d['items']`; `path = none` models an item whose first entry
is not a list (skipped). -/
structure DrawItem where
  path : Option (List DrawCmd)
deriving DecidableEq

structure Drawing where
  items : List DrawItem
deriving DecidableEq

/-- A line segment `(x0, y0, x1, y1)` (normalised as in the source). -/
structure Seg where
  p1 : ℚ
  p2 : ℚ
  p3 : ℚ
  p4 : ℚ
deriving DecidableEq

def myAbs (q : ℚ) : ℚ := if q < 0 then -q else q

def myMin (a b : ℚ) : ℚ := if a ≤ b then a else b

def myMax (a b : ℚ) : ℚ := if a ≤ b then b else a

/-- The segment-collection loop of `_detect_tables_from_drawing_lines`:
near-horizontal segments (endpoint y-delta < 1, x-extent > 10) and
near-vertical ones (x-delta < 1, y-extent > 10). -/
def classifySegments (drawings : List Drawing) : List Seg × List Seg :=
  drawings.foldl
    (fun acc d =>
      d.items.foldl
        (fun acc it =>
          match it.path with
          | none => acc
          | some cmds =>
            cmds.foldl
              (fun acc cmd =>
                if cmd.pts.length < 4 then acc
                else
                  let x0 := cmd.pts.getD 0 0
                  let y0 := cmd.pts.getD 1 0
                  let x1 := cmd.pts.getD (cmd.pts.length - 2) 0
                  let y1 := cmd.pts.getD (cmd.pts.length - 1) 0
                  if myAbs (y1 - y0) < 1 ∧ 10 < myAbs (x1 - x0) then
                    (acc.1 ++ [⟨myMin x0 x1, y0, myMax x0 x1, y1⟩], acc.2)
                  else if myAbs (x1 - x0) < 1 ∧ 10 < myAbs (y1 - y0) then
                    (acc.1, acc.2 ++ [⟨x0, myMin y0 y1, x1, myMax y0 y1⟩])
                  else acc)
              acc)
        acc)
    ([], [])

/-- The `cluster` helper of `_detect_tables_from_drawing_lines`: sort, group
values within tolerance of the running last value, return midpoints. -/
def clusterVals (vals : List ℚ) (tol : ℚ) : List ℚ :=
  let sorted := pySortBy (fun a b => decide (a ≤ b)) vals
  let clusters := sorted.foldl
    (fun (cs : List (ℚ × ℚ)) v =>
      match cs.getLast? with
      | none => [(v, v)]
      | some ab => if tol < myAbs (v - ab.2) then cs ++ [(v, v)] else cs.dropLast ++ [(ab.1, v)])
    []
  clusters.map (fun ab => (ab.1 + ab.2) / 2)

/-- `headers = [cell if cell else f"Col {i+1}" ...]`. -/
def mkHeaderCells (r : List (List Char)) : List (List Char) :=
  r.mapIdx (fun i c => if !c.isEmpty then c else "Col ".data ++ Nat.toDigits 10 (i + 1))

/-- The header/rows partition shared by both grid detectors: the first row
with a truthy cell becomes the header (blank cells defaulting to `Col N`),
every other row — including blank rows preceding the header — is a data row,
in order. -/
def splitHeaderRows :
    List (List (List Char)) → Option (List (List Char)) × List (List (List Char))
  | [] => (none, [])
  | r :: rest =>
    if r.any (fun c => !c.isEmpty) then (some (mkHeaderCells r), rest)
    else
      let p := splitHeaderRows rest
      (p.1, r :: p.2)

/-- The per-cell text of the grid: `page.get_textbox(rect)` is the external
oracle (`none` models the call raising, handled by `except: txt = ""`), then
stripped and cleaned. -/
def gridCellRows (xs ys : List ℚ) (textbox : ℚ → ℚ → ℚ → ℚ → Option (List Char)) :
    List (List (List Char)) :=
  (List.range (ys.length - 1)).map (fun r =>
    (List.range (xs.length - 1)).map (fun c =>
      let t :=
        match textbox (xs.getD c 0 + 1) (ys.getD r 0 + 1)
            (xs.getD (c + 1) 0 - 1) (ys.getD (r + 1) 0 - 1) with
        | some s => pyStrip s
        | none => []
      clean_text_fragments t))

/-- `PDFToHTMLConverter._detect_tables_from_drawing_lines`, over the page's
drawings and its `get_textbox` oracle. -/
def detect_tables_from_drawing_lines (drawings : List Drawing)
    (textbox : ℚ → ℚ → ℚ → ℚ → Option (List Char)) (page_num : ℕ) : Option TableRec :=
  let hv := classifySegments drawings
  if hv.1.length < 2 ∨ hv.2.length < 2 then none
  else
    let xs0 := clusterVals
      (hv.1.map (fun s => s.p1) ++ hv.2.map (fun s => s.p1) ++ hv.1.map (fun s => s.p3)) 3
    let ys0 := clusterVals
      (hv.2.map (fun s => s.p2) ++ hv.1.map (fun s => s.p2) ++ hv.2.map (fun s => s.p4)) 3
    if xs0.length < 2 ∨ ys0.length < 2 then none
    else
      let xs := pySortBy (fun a b => decide (a ≤ b)) xs0
      let ys := pySortBy (fun a b => decide (a ≤ b)) ys0
      let p := splitHeaderRows (gridCellRows xs ys textbox)
      match p.1 with
      | some hs =>
        if !hs.isEmpty && !p.2.isEmpty then
          some ⟨page_num, hs :: p.2, TType.grid, "Detected Table".data, none⟩
        else none
      | none => none

/-- Span collection of `_detect_tables_from_text_grid`: `(y0, x0, txt)` for
every span with nonblank stripped text and a bbox of length at least 2. -/
def textGridSpans (blocks : List Block) : List (ℚ × ℚ × List Char) :=
  (allLines blocks).flatMap (fun line =>
    line.spans.filterMap (fun s =>
      let txt := pyStrip s.text
      if txt.isEmpty then none
      else
        match s.bbox with
        | some bs => if bs.isEmpty ∨ bs.length < 2 then none
                     else some (bs.getD 1 0, bs.getD 0 0, txt)
        | none => none))

/-- Row clustering by y-proximity with the drifting running average
(`last_y = (last_y + y0) / 2`). -/
def yClusterRows (sorted : List (ℚ × ℚ × List Char)) : List (List (ℚ × List Char)) :=
  let st := sorted.foldl
    (fun (st : List (List (ℚ × List Char)) × List (ℚ × List Char) × Option ℚ) t =>
      match st.2.2 with
      | none => (st.1, st.2.1 ++ [(t.2.1, t.2.2)], some t.1)
      | some ly =>
        if myAbs (t.1 - ly) ≤ 3 then (st.1, st.2.1 ++ [(t.2.1, t.2.2)], some ((ly + t.1) / 2))
        else (st.1 ++ [st.2.1], [(t.2.1, t.2.2)], some t.1))
    ([], [], none)
  if !st.2.1.isEmpty then st.1 ++ [st.2.1] else st.1

/-- Cell building of `_detect_tables_from_text_grid`: sort the row's spans by
x and split on gaps above 25 units; cells are space-joined buffers, stripped. -/
def buildCells (spans : List (ℚ × List Char)) : List (List Char) :=
  let sorted := pySortBy (fun a b => decide (a.1 ≤ b.1)) spans
  let st := sorted.foldl
    (fun (st : List (List Char) × List (List Char) × Option ℚ) xt =>
      match st.2.2 with
      | some px =>
        if 25 < xt.1 - px ∧ !st.2.1.isEmpty then
          (st.1 ++ [pyStrip (List.intercalate [' '] st.2.1)], [xt.2], some xt.1)
        else (st.1, st.2.1 ++ [xt.2], some xt.1)
      | none => (st.1, st.2.1 ++ [xt.2], some xt.1))
    ([], [], none)
  if !st.2.1.isEmpty then st.1 ++ [pyStrip (List.intercalate [' '] st.2.1)] else st.1

/-- Insertion-ordered occurrence counts, modelling the Python dict `counts`. -/
def bumpCount (acc : List (ℕ × ℕ)) (k : ℕ) : List (ℕ × ℕ) :=
  if acc.any (fun kv => kv.1 == k) then
    acc.map (fun kv => if kv.1 == k then (kv.1, kv.2 + 1) else kv)
  else acc ++ [(k, 1)]

/-- `max(counts.items(), key=lambda kv: kv[1])`: first maximal by count in
insertion order. -/
def maxBySnd (c : ℕ × ℕ) (rest : List (ℕ × ℕ)) : ℕ × ℕ :=
  rest.foldl (fun b kv => if b.2 < kv.2 then kv else b) c

/-- `r` padded with empty strings / truncated to the dominant column count. -/
def padTruncate (cc : ℕ) (r : List (List Char)) : List (List Char) :=
  if r.length < cc then r ++ List.replicate (cc - r.length) []
  else if cc < r.length then r.take cc
  else r

/-- `PDFToHTMLConverter._detect_tables_from_text_grid`. -/
def detect_tables_from_text_grid (blocks : List Block) (page_num : ℕ) : Option TableRec :=
  let span_rows := textGridSpans blocks
  if span_rows.isEmpty then none
  else
    let sorted := pySortBy
      (fun a b => decide (a.1 < b.1 ∨ (a.1 = b.1 ∧ a.2.1 ≤ b.2.1))) span_rows
    let built_rows := (yClusterRows sorted).filterMap
      (fun spans => if spans.isEmpty then none else some (buildCells spans))
    let counts := (built_rows.map List.length).foldl bumpCount []
    match counts with
    | [] => none
    | c :: crest =>
      let best := maxBySnd c crest
      if best.1 < 3 ∨ best.2 < 3 then none
      else
        let filtered := built_rows.map (fun r => (padTruncate best.1 r).map clean_text_fragments)
        let p := splitHeaderRows filtered
        match p.1 with
        | some hs =>
          if !hs.isEmpty && !p.2.isEmpty then
            some ⟨page_num, hs :: p.2, TType.grid, "Detected Table".data, none⟩
          else none
        | none => none

/-- The empty-table branch condition of `generate_professional_table`
(`if not table['data'] or len(table['data']) < 2: return ""`). -/
def generate_table_empty_branch (t : TableRec) : Bool :=
  t.data.isEmpty || decide (t.data.length < 2)

/-- Do all data rows have exactly as many cells as the header row (the first
row of `data`)? -/
def dataRowsMatchHeader (t : TableRec) : Bool :=
  match t.data with
  | [] => true
  | hs :: rest => rest.all (fun r => r.length == hs.length)

/-- Are all rows of the table mutually of equal width? -/
def rowsUniformB (rows : List (List (List Char))) : Bool :=
  rows.all (fun r1 => rows.all (fun r2 => r1.length == r2.length))

/-- A one-span line at the given y position, for concrete detector inputs. -/
def mkSpanLine (t : String) (y : ℚ) : BLine := ⟨[⟨t.data, some [0, y]⟩]⟩

/-- Blocks on which the stakeholder detector captures a 3-cell header followed
by a 2-cell data row. -/
def c3_ex_blocks : List Block :=
  [⟨some [mkSpanLine "Stakeholder Category Primary Users Secondary Users" 100,
          mkSpanLine "Cultural Producers   artisans and musicians" 120]⟩]

/-- Blocks on which the technical detector captures a dependency table. -/
def c10_tech_blocks : List Block :=
  [⟨some [mkSpanLine "Dependency Type overview" 40,
          mkSpanLine "Prerequisite Features   user accounts" 60]⟩]

/-- Drawing commands forming a 2-row, 1-column grid (three horizontal rules,
two vertical rules). -/
def c4_ex_drawings : List Drawing :=
  [⟨[⟨some [⟨"l".data, [0, 0, 100, 0]⟩, ⟨"l".data, [0, 50, 100, 50]⟩,
            ⟨"l".data, [0, 100, 100, 100]⟩, ⟨"l".data, [0, 0, 0, 100]⟩,
            ⟨"l".data, [100, 0, 100, 100]⟩]⟩]⟩]

/-- A `get_textbox` oracle returning "x" for every cell. -/
def c4_ex_oracle : ℚ → ℚ → ℚ → ℚ → Option (List Char) := fun _ _ _ _ => some "x".data

/-- Blocks whose spans form a 3-by-3 text grid (x gaps of 30 > 25, y gaps of
10 > 3). -/
def c4_tg_blocks : List Block :=
  [⟨some [⟨[⟨"a".data, some [0, 0]⟩, ⟨"a".data, some [30, 0]⟩, ⟨"a".data, some [60, 0]⟩,
           ⟨"a".data, some [0, 10]⟩, ⟨"a".data, some [30, 10]⟩, ⟨"a".data, some [60, 10]⟩,
           ⟨"a".data, some [0, 20]⟩, ⟨"a".data, some [30, 20]⟩, ⟨"a".data, some [60, 20]⟩]⟩]⟩]

/-- The image fields consumed by `insert_relevant_images`. -/
structure ImageRec where
  data : List Char
  is_diagram : Bool
  is_watermark : Bool
deriving DecidableEq

/-- `PDFToHTMLConverter.generate_diagram_html`. -/
def generate_diagram_html (image : ImageRec) : List Char :=
  "\n        <div class=\"diagram-container\">\n            <h4 class=\"diagram-title\">System Architecture Diagram</h4>\n            <div class=\"diagram-wrapper\">\n                <img src=\"".data ++
  image.data ++
  "\" alt=\"System Diagram\" class=\"system-diagram\" />\n            </div>\n            <p class=\"diagram-caption\">Figure: System components and their relationships</p>\n        </div>\n        ".data

/-- `PDFToHTMLConverter.generate_flowchart_html`. -/
def generate_flowchart_html (image : ImageRec) : List Char :=
  "\n        <div class=\"flowchart-container\">\n            <h4 class=\"flowchart-title\">Process Flowchart</h4>\n            <div class=\"flowchart-wrapper\">\n                <img src=\"".data ++
  image.data ++
  "\" alt=\"Process Flowchart\" class=\"process-flowchart\" />\n            </div>\n            <p class=\"flowchart-caption\">Figure: System workflow and decision points</p>\n        </div>\n        ".data

/-- `PDFToHTMLConverter.insert_relevant_images`: watermarked images are
skipped; diagrams go to section 3, flowcharts to section 5. -/
def insert_relevant_images (images : List ImageRec) (section_id : ℕ) : List Char :=
  images.foldl
    (fun acc img =>
      if img.is_watermark then acc
      else if section_id = 3 ∧ img.is_diagram = true then acc ++ generate_diagram_html img
      else if section_id = 5 ∧ img.is_diagram = true then acc ++ generate_flowchart_html img
      else acc)
    []

/-- One data row of `generate_professional_table`: the cells (first column
highlighted) padded with empty cells up to the header width. -/
def tableRowHtml (headers_len : ℕ) (row : List (List Char)) : List Char :=
  "<tr class=\"table-row\">".data ++
  (row.mapIdx (fun i cell =>
    "<td class=\"".data ++
    (if i = 0 then "table-cell first-column".data else "table-cell".data) ++
    "\">".data ++ cell ++ "</td>".data)).foldl (fun a b => a ++ b) [] ++
  (List.replicate (headers_len - row.length) "<td class=\"table-cell\"></td>".data).foldl
    (fun a b => a ++ b) [] ++
  "</tr>".data

/-- `PDFToHTMLConverter.generate_professional_table`; the empty-table branch
is `generate_table_empty_branch`. -/
def generate_professional_table (t : TableRec) : List Char :=
  if generate_table_empty_branch t then []
  else
    let headers := t.data.headI
    "\n        <div class=\"professional-table-container\">\n            <h4 class=\"table-title\">".data ++
    t.title ++
    "</h4>\n            <div class=\"table-wrapper\">\n                <table class=\"professional-table\">\n                    <thead>\n                        <tr>\n        ".data ++
    (headers.map (fun h =>
      "<th class=\"table-header\">".data ++ h ++ "</th>".data)).foldl (fun a b => a ++ b) [] ++
    "</tr></thead><tbody>".data ++
    (t.data.tail.map (tableRowHtml headers.length)).foldl (fun a b => a ++ b) [] ++
    "\n                </tbody>\n            </table>\n        </div>\n    </div>\n        ".data

/-- The fixed section-to-table-type affinity map of `insert_relevant_tables`. -/
def section_table_map (section_id : ℕ) : List TType :=
  if section_id = 1 then [TType.stakeholder, TType.grid]
  else if section_id = 2 then [TType.technical, TType.grid]
  else if section_id = 3 then [TType.technical, TType.grid]
  else if section_id = 4 then [TType.technical, TType.grid]
  else []

/-- `table_sort_key`: `(page, y0 or 1e9)` when positional hints are missing,
otherwise a page-mismatch penalty and the vertical offset from the section
anchor. -/
def table_sort_key (section_page : Option ℕ) (section_y0 : Option ℚ) (t : TableRec) : ℚ × ℚ :=
  match section_page, section_y0, t.y0 with
  | some sp, some sy, some y =>
    let penalty : ℚ := if t.page = sp then 0 else myAbs ((t.page : ℚ) - (sp : ℚ)) * 10000
    let delta : ℚ := if t.page = sp then y - sy else 1000000
    (penalty, delta)
  | _, _, _ => ((t.page : ℚ), match t.y0 with | some y => y | none => 1000000000)

/-- `PDFToHTMLConverter.insert_relevant_tables`. -/
def insert_relevant_tables (tables : List TableRec) (section_id : ℕ)
    (section_y0 : Option ℚ) (section_page : Option ℕ) : List Char :=
  let relevant := section_table_map section_id
  let candidates := tables.filter (fun t => relevant.any (fun ty => decide (t.ttype = ty)))
  let sorted := pySortBy
    (fun a b =>
      let ka := table_sort_key section_page section_y0 a
      let kb := table_sort_key section_page section_y0 b
      decide (ka.1 < kb.1 ∨ (ka.1 = kb.1 ∧ ka.2 ≤ kb.2)))
    candidates
  (sorted.map generate_professional_table).foldl (fun a b => a ++ b) []

/-- `PDFToHTMLConverter.wrap_section`. -/
def wrap_section (images : List ImageRec) (title content : List Char) (section_id : ℕ) :
    List Char :=
  "\n        <section id=\"section-".data ++ Nat.toDigits 10 section_id ++
  "\" class=\"document-section\">\n            <div class=\"section-header-wrapper\">\n                <h1 class=\"section-title\">".data ++
  title ++
  "</h1>\n            </div>\n            <div class=\"section-content\">\n                ".data ++
  content ++
  "\n                ".data ++
  insert_relevant_images images section_id ++
  "\n            </div>\n        </section>\n        ".data

/-- Python `hay.replace(needle, repl)` for a nonempty needle. -/
def replaceSubGo (needle repl : List Char) : ℕ → List Char → List Char
  | 0, l => l
  | _ + 1, [] => []
  | fuel + 1, c :: rest =>
    if !needle.isEmpty && needle.isPrefixOf (c :: rest) then
      repl ++ replaceSubGo needle repl fuel ((c :: rest).drop needle.length)
    else c :: replaceSubGo needle repl fuel rest

def replaceSub (needle repl hay : List Char) : List Char := replaceSubGo needle repl hay.length hay

/-- The literal `'</div>\n        </section>'` targeted by the
`section_html.replace` call that injects the section's tables. -/
def sectionCloseTag : List Char := "</div>\n        </section>".data

/-- List kinds of the reconstructor (`'ul'` / `'ol'`). -/
inductive LKind
  | ul
  | ol
deriving DecidableEq

def lkindTag : LKind → List Char
  | .ul => "ul".data
  | .ol => "ol".data

/-- `PDFToHTMLConverter._indent_level_from_x`: `int((x0 - 36.0) // 24.0)`,
clamped to 0 when `x0 ≤ 36` (or `x0` is `None`). -/
def indent_level_from_x (x0 : Option ℚ) : ℤ :=
  match x0 with
  | none => 0
  | some x => if x ≤ 36 then 0 else ((x - 36) / 24).floor

/-- `PDFToHTMLConverter._parse_list_item`: bullet markers give an unordered
item, `\d+[\)\.]`, a single letter plus `)`/`.`, or a roman-numeral run plus
`)`/`.` (case-insensitive) give an ordered item; the nesting level comes from
the x offset. -/
def parse_list_item (text : List Char) (x0 : Option ℚ) : Option (LKind × List Char × ℤ) :=
  let stripped := pyStrip text
  let afterMarker : List Char → Option (List Char) := fun rest =>
    let sp := rest.takeWhile isPySpace
    if sp.isEmpty then none else some (pyStrip (rest.dropWhile isPySpace))
  let bulletCase : Option (List Char) :=
    match stripped with
    | c :: rest => if bulletMarkerChars.contains c then afterMarker rest else none
    | [] => none
  match bulletCase with
  | some content => some (LKind.ul, content, indent_level_from_x x0)
  | none =>
    let digitRun := stripped.takeWhile Char.isDigit
    let digitCase : Option (List Char) :=
      if digitRun.isEmpty then none
      else
        match stripped.drop digitRun.length with
        | c :: rest => if c == ')' || c == '.' then afterMarker rest else none
        | [] => none
    let letterCase : Option (List Char) :=
      match stripped with
      | c :: br :: rest =>
        if c.isAlpha && (br == ')' || br == '.') then afterMarker rest else none
      | _ => none
    let romanRun := stripped.takeWhile isRomanChar
    let romanCase : Option (List Char) :=
      if romanRun.isEmpty then none
      else
        match stripped.drop romanRun.length with
        | c :: rest => if c == ')' || c == '.' then afterMarker rest else none
        | [] => none
    match digitCase with
    | some content => some (LKind.ol, content, indent_level_from_x x0)
    | none =>
      match letterCase with
      | some content => some (LKind.ol, content, indent_level_from_x x0)
      | none =>
        match romanCase with
        | some content => some (LKind.ol, content, indent_level_from_x x0)
        | none => none

/-- An open list on the assembler's stack. -/
structure ListFrame where
  kind : LKind
  level : ℤ
deriving DecidableEq

/-- A table-of-contents entry. -/
structure TocItem where
  title : List Char
  anchor : List Char
  level : ℕ
deriving DecidableEq

/-- The assembler's fold state (`html_content`, `current_section`,
`section_content`, `section_id`, `toc_items`, `list_stack`, `section_anchor`).
The stack's head is the innermost open list (Python's `list_stack[-1]`). -/
structure BuildState where
  html : List Char
  current_section : Option (List Char)
  section_content : List Char
  section_id : ℕ
  toc : List TocItem
  stack : List ListFrame
  anchor_page : Option ℕ
  anchor_y0 : Option ℚ

/-- `while list_stack: content += f"</...>\n"`. -/
def closeAllLists : List ListFrame → List Char → List Char
  | [], content => content
  | f :: rest, content =>
    closeAllLists rest (content ++ "</".data ++ lkindTag f.kind ++ ">\n".data)

/-- `while list_stack and list_stack[-1]['level'] > level: close`. -/
def closeDeeper : List ListFrame → List Char → ℤ → List ListFrame × List Char
  | [], content, _ => ([], content)
  | f :: rest, content, level =>
    if level < f.level then
      closeDeeper rest (content ++ "</".data ++ lkindTag f.kind ++ ">\n".data) level
    else (f :: rest, content)

/-- The list-opening loop: open missing levels up to the target, breaking once
the newly opened level reaches it.  The fuel bounds the iterations (each one
pushes a frame one level higher, so `level + 2` steps always suffice). -/
def openListsGo : ℕ → List ListFrame → List Char → LKind → ℤ → List ListFrame × List Char
  | 0, stack, content, _, _ => (stack, content)
  | fuel + 1, stack, content, lt, level =>
    match stack with
    | [] =>
      let content' := content ++ "<".data ++ lkindTag lt ++ ">\n".data
      let stack' := [(⟨lt, 0⟩ : ListFrame)]
      if level ≤ 0 then (stack', content') else openListsGo fuel stack' content' lt level
    | f :: _ =>
      if f.level < level ∨ (f.level = level ∧ f.kind ≠ lt) then
        let new_level := f.level + 1
        let content' := content ++ "<".data ++ lkindTag lt ++ ">\n".data
        let stack' := (⟨lt, new_level⟩ : ListFrame) :: stack
        if level ≤ new_level then (stack', content') else openListsGo fuel stack' content' lt level
      else (stack, content)

/-- Flush the previous section: close open lists into the section content,
wrap it, and inject the relevant tables before the closing tags. -/
def flushSection (tables : List TableRec) (images : List ImageRec) (st : BuildState)
    (title : List Char) : List Char :=
  let content' := closeAllLists st.stack st.section_content
  let section_html := wrap_section images title content' st.section_id
  let tables_html := insert_relevant_tables tables st.section_id st.anchor_y0 st.anchor_page
  st.html ++ replaceSub sectionCloseTag (tables_html ++ sectionCloseTag) section_html

/-- One item of the `build_structured_content` fold. -/
def buildStep (tables : List TableRec) (images : List ImageRec) (st : BuildState)
    (item : ContentItem) : BuildState :=
  let text := item.text
  match item.role with
  | TextRole.main_title =>
    let st1 :=
      if st.current_section.isSome ∧ !st.section_content.isEmpty then
        { st with
          html := flushSection tables images st (st.current_section.getD [])
          stack := []
          section_content := [] }
      else st
    let sid := st1.section_id + 1
    { st1 with
      section_id := sid
      current_section := some text
      toc := st1.toc ++ [⟨text, "section-".data ++ Nat.toDigits 10 sid, 1⟩]
      anchor_page := none
      anchor_y0 := none }
  | TextRole.section_header =>
    { st with
      section_content := closeAllLists st.stack st.section_content
      stack := []
      html := st.html ++ "<h2 class=\"section-header\">".data ++ text ++ "</h2>\n".data
      anchor_page := some item.page
      anchor_y0 := some item.y0 }
  | TextRole.subsection_header =>
    { st with
      section_content := closeAllLists st.stack st.section_content
      stack := []
      html := st.html ++ "<h3 class=\"subsection-header\">".data ++ text ++ "</h3>\n".data
      anchor_page := some item.page
      anchor_y0 := some item.y0 }
  | TextRole.bold_header =>
    { st with
      section_content := closeAllLists st.stack st.section_content
      stack := []
      html := st.html ++ "<h4 class=\"bold-header\">".data ++ text ++ "</h4>\n".data
      anchor_page := some item.page
      anchor_y0 := some item.y0 }
  | TextRole.paragraph =>
    if 1 < (pyStrip text).length then
      match parse_list_item text (some item.x0) with
      | some info =>
        let level := info.2.2
        let lt := info.1
        let p1 := closeDeeper st.stack st.section_content level
        let p2 :=
          match p1.1 with
          | f :: rest =>
            if f.level = level ∧ f.kind ≠ lt then
              (rest, p1.2 ++ "</".data ++ lkindTag f.kind ++ ">\n".data)
            else p1
          | [] => p1
        let p3 := openListsGo (level.toNat + 2) p2.1 p2.2 lt level
        { st with
          stack := p3.1
          section_content := p3.2 ++ "<li>".data ++ info.2.1 ++ "</li>\n".data }
      | none =>
        let content' := closeAllLists st.stack st.section_content
        let content'' := content' ++ "<p class=\"content-paragraph\">".data ++ text ++
          "</p>\n".data
        if st.anchor_page.isNone then
          { st with
            stack := []
            section_content := content''
            anchor_page := some item.page
            anchor_y0 := some item.y0 }
        else
          { st with stack := [], section_content := content'' }
    else st

/-- `PDFToHTMLConverter.build_structured_content`: fold the items, then flush
the final section; returns the HTML and the table-of-contents entries. -/
def build_structured_content (tables : List TableRec) (images : List ImageRec)
    (content_structure : List ContentItem) : List Char × List TocItem :=
  let st := content_structure.foldl (buildStep tables images)
    ⟨[], none, [], 0, [], [], none, none⟩
  match st.current_section with
  | some title =>
    if !st.section_content.isEmpty then (flushSection tables images st title, st.toc)
    else (st.html, st.toc)
  | none => (st.html, st.toc)

/-- The two-bullet scenario: a main title opening section 1, then two bullet
lines at x0 = 40. -/
def c8_ex_items : List ContentItem :=
  [⟨"Overview".data, 0, TextRole.main_title, 18, true, 36, 50⟩,
   ⟨"• First item".data, 0, TextRole.paragraph, 12, false, 40, 100⟩,
   ⟨"• Second item".data, 0, TextRole.paragraph, 12, false, 40, 112⟩]

/-! ## Theorems -/

theorem length_pos_of_isEmpty_false {α : Type} (l : List α) (h : l.isEmpty = false) :
    0 < l.length := by
  cases l with
  | nil => simp at h
  | cons a t => simp

theorem mkHeaderCells_length (r : List (List Char)) : (mkHeaderCells r).length = r.length := by
  simp [mkHeaderCells]

theorem splitHeaderRows_spec (n : ℕ) :
    ∀ rows : List (List (List Char)), (∀ r ∈ rows, r.length = n) →
      (∀ hs, (splitHeaderRows rows).1 = some hs → hs.length = n) ∧
      (∀ r ∈ (splitHeaderRows rows).2, r.length = n) := by
  intro rows
  induction rows with
  | nil => intro _; simp [splitHeaderRows]
  | cons r rest ih =>
    intro h
    have hr := h r (List.mem_cons_self r rest)
    have hrest := fun q hq => h q (List.mem_cons_of_mem _ hq)
    have ihr := ih hrest
    by_cases hc : (r.any (fun c => !c.isEmpty)) = true
    · constructor
      · intro hs hhs
        simp [splitHeaderRows, hc] at hhs
        simp [← hhs, mkHeaderCells_length, hr]
      · intro q hq
        simp [splitHeaderRows, hc] at hq
        exact hrest q hq
    · constructor
      · intro hs hhs
        simp only [splitHeaderRows, hc] at hhs
        exact ihr.1 hs hhs
      · intro q hq
        simp only [splitHeaderRows, hc] at hq
        simp at hq
        rcases hq with rfl | hq
        · exact hr
        · exact ihr.2 q hq

theorem splitHeaderRows_table (rows : List (List (List Char))) (n : ℕ)
    (hrows : ∀ r ∈ rows, r.length = n) (hs : List (List Char))
    (hp : (splitHeaderRows rows).1 = some hs) :
    ∀ r ∈ hs :: (splitHeaderRows rows).2, r.length = n := by
  intro r hr
  rcases List.mem_cons.mp hr with rfl | hr
  · exact (splitHeaderRows_spec n rows hrows).1 r hp
  · exact (splitHeaderRows_spec n rows hrows).2 r hr

theorem gridCellRows_lengths (xs ys : List ℚ) (tb : ℚ → ℚ → ℚ → ℚ → Option (List Char)) :
    ∀ r ∈ gridCellRows xs ys tb, r.length = xs.length - 1 := by
  intro r hr
  simp only [gridCellRows, List.mem_map] at hr
  obtain ⟨i, _, rfl⟩ := hr
  simp

theorem padTruncate_length (cc : ℕ) (r : List (List Char)) :
    (padTruncate cc r).length = cc := by
  unfold padTruncate
  split
  · simp; omega
  · split
    · simp; omega
    · omega

theorem filtered_all_length (cc : ℕ) (rows : List (List (List Char))) :
    ∀ r ∈ rows.map (fun r => (padTruncate cc r).map clean_text_fragments), r.length = cc := by
  intro r hr
  simp only [List.mem_map] at hr
  obtain ⟨q, _, rfl⟩ := hr
  simp [padTruncate_length]

theorem dataRowsMatchHeader_of_all (t : TableRec) (h : ∃ n, ∀ r ∈ t.data, r.length = n) :
    dataRowsMatchHeader t = true := by
  obtain ⟨n, h⟩ := h
  unfold dataRowsMatchHeader
  cases hd : t.data with
  | nil => rfl
  | cons hs rest =>
    simp only [List.all_eq_true]
    intro r hr
    have h1 := h hs (by rw [hd]; exact List.mem_cons_self _ _)
    have h2 := h r (by rw [hd]; exact List.mem_cons_of_mem _ hr)
    simp [h1, h2]

theorem rowsUniformB_of_all (rows : List (List (List Char)))
    (h : ∃ n, ∀ r ∈ rows, r.length = n) : rowsUniformB rows = true := by
  obtain ⟨n, h⟩ := h
  simp only [rowsUniformB, List.all_eq_true]
  intro r1 h1 r2 h2
  simp [h r1 h1, h r2 h2]

theorem detect_drawing_all_rows (drawings : List Drawing)
    (tb : ℚ → ℚ → ℚ → ℚ → Option (List Char)) (pn : ℕ) (t : TableRec)
    (hdet : detect_tables_from_drawing_lines drawings tb pn = some t) :
    ∃ n, ∀ r ∈ t.data, r.length = n := by
  simp only [detect_tables_from_drawing_lines] at hdet
  split at hdet
  · exact absurd hdet (by simp)
  · split at hdet
    · exact absurd hdet (by simp)
    · split at hdet
      · split at hdet
        · rename_i hs hp hcond
          injection hdet with hinj
          subst hinj
          exact ⟨_, splitHeaderRows_table _ _ (gridCellRows_lengths _ _ _) _ hp⟩
        · exact absurd hdet (by simp)
      · exact absurd hdet (by simp)

theorem detect_textgrid_all_rows (blocks : List Block) (pn : ℕ) (t : TableRec)
    (hdet : detect_tables_from_text_grid blocks pn = some t) :
    ∃ n, ∀ r ∈ t.data, r.length = n := by
  simp only [detect_tables_from_text_grid] at hdet
  split at hdet
  · exact absurd hdet (by simp)
  · split at hdet
    · exact absurd hdet (by simp)
    · split at hdet
      · exact absurd hdet (by simp)
      · split at hdet
        · split at hdet
          · rename_i hs hp hcond
            injection hdet with hinj
            subst hinj
            exact ⟨_, splitHeaderRows_table _ _ (filtered_all_length _ _) _ hp⟩
          · exact absurd hdet (by simp)
        · exact absurd hdet (by simp)

theorem empty_branch_false_of_ge2 (t : TableRec) (h : 2 ≤ t.data.length) :
    generate_table_empty_branch t = false := by
  cases hd : t.data with
  | nil => rw [hd] at h; simp at h
  | cons a l =>
    rw [hd] at h
    simp only [generate_table_empty_branch, hd, List.isEmpty_cons, List.length_cons,
      Bool.false_or, decide_eq_false_iff_not, Nat.not_lt]
    simpa using h

theorem find_stakeholder_ge2 (blocks : List Block) (pn : ℕ) (t : TableRec)
    (hdet : find_stakeholder_tables blocks pn = some t) : 2 ≤ t.data.length := by
  simp only [find_stakeholder_tables] at hdet
  split at hdet
  · rename_i hcond
    injection hdet with hinj
    subst hinj
    simp only [Bool.and_eq_true, decide_eq_true_eq] at hcond
    simpa using hcond.2
  · exact absurd hdet (by simp)

theorem techStep_preserves_ge2 (pn : ℕ) (line : BLine) (st : TechState)
    (h : ∀ t ∈ st.tables, 2 ≤ t.data.length) :
    ∀ t ∈ (techStep pn st line).tables, 2 ≤ t.data.length := by
  simp only [techStep]
  split
  · exact h
  · split
    · exact h
    · split
      · exact h
      · split
        · split
          · split
            · exact h
            · exact h
          · split
            · split
              · rename_i hguard
                intro t ht
                rcases List.mem_append.mp ht with h1 | h2
                · exact h t h1
                · simp only [List.mem_singleton] at h2
                  subst h2
                  simp only [Bool.and_eq_true, decide_eq_true_eq] at hguard
                  simpa using hguard.2
              · exact h
            · exact h
        · exact h

theorem foldl_techStep_ge2 (pn : ℕ) :
    ∀ (lines : List BLine) (st : TechState), (∀ t ∈ st.tables, 2 ≤ t.data.length) →
      ∀ t ∈ (lines.foldl (techStep pn) st).tables, 2 ≤ t.data.length := by
  intro lines
  induction lines with
  | nil => intro st h; exact h
  | cons l rest ih => intro st h; exact ih _ (techStep_preserves_ge2 pn l st h)

theorem find_technical_ge2 (blocks : List Block) (pn : ℕ) (t : TableRec)
    (ht : t ∈ find_technical_tables blocks pn) : 2 ≤ t.data.length := by
  simp only [find_technical_tables] at ht
  have hbase := foldl_techStep_ge2 pn (allLines blocks) ⟨[], [], false, none⟩ (by simp)
  split at ht
  · rename_i hguard
    rcases List.mem_append.mp ht with h1 | h2
    · exact hbase t h1
    · simp only [List.mem_singleton] at h2
      subst h2
      simp only [Bool.and_eq_true, decide_eq_true_eq] at hguard
      simpa using hguard.2
  · exact hbase t ht

theorem detect_drawing_ge2 (drawings : List Drawing)
    (tb : ℚ → ℚ → ℚ → ℚ → Option (List Char)) (pn : ℕ) (t : TableRec)
    (hdet : detect_tables_from_drawing_lines drawings tb pn = some t) :
    2 ≤ t.data.length := by
  simp only [detect_tables_from_drawing_lines] at hdet
  split at hdet
  · exact absurd hdet (by simp)
  · split at hdet
    · exact absurd hdet (by simp)
    · split at hdet
      · split at hdet
        · rename_i hs hp hcond
          injection hdet with hinj
          subst hinj
          simp only [Bool.and_eq_true, Bool.not_eq_true'] at hcond
          rcases hcond with ⟨-, h2⟩
          have h3 := length_pos_of_isEmpty_false _ h2
          simp only [List.length_cons]
          omega
        · exact absurd hdet (by simp)
      · exact absurd hdet (by simp)

theorem detect_textgrid_ge2 (blocks : List Block) (pn : ℕ) (t : TableRec)
    (hdet : detect_tables_from_text_grid blocks pn = some t) :
    2 ≤ t.data.length := by
  simp only [detect_tables_from_text_grid] at hdet
  split at hdet
  · exact absurd hdet (by simp)
  · split at hdet
    · exact absurd hdet (by simp)
    · split at hdet
      · exact absurd hdet (by simp)
      · split at hdet
        · split at hdet
          · rename_i hs hp hcond
            injection hdet with hinj
            subst hinj
            simp only [Bool.and_eq_true, Bool.not_eq_true'] at hcond
            rcases hcond with ⟨-, h2⟩
            have h3 := length_pos_of_isEmpty_false _ h2
            simp only [List.length_cons]
            omega
          · exact absurd hdet (by simp)
        · exact absurd hdet (by simp)

/-- Claim C3, counterexample: the keyword-pattern stakeholder detector appends
a table whose header row has 3 cells but whose data row has only 2 — row
widths are not uniform for keyword-pattern tables (`split_table_row` only
guarantees at least 2 parts). -/
theorem c3_stakeholder_nonuniform_counterexample :
    ((find_stakeholder_tables c3_ex_blocks 0).map (fun t => t.data.map List.length)) =
      some [3, 2] ∧
    ((find_stakeholder_tables c3_ex_blocks 0).map (fun t => rowsUniformB t.data)) =
      some false := by
  decide

/-- Claim C3, amended: row widths are uniform within every Table appended by
the vector-grid and text-grid detectors; tables appended by the
keyword-pattern detectors may have rows of differing cell counts. -/
theorem c3_grid_detector_tables_uniform :
    (∀ (drawings : List Drawing) (tb : ℚ → ℚ → ℚ → ℚ → Option (List Char)) (pn : ℕ)
       (t : TableRec), detect_tables_from_drawing_lines drawings tb pn = some t →
         rowsUniformB t.data = true) ∧
    (∀ (blocks : List Block) (pn : ℕ) (t : TableRec),
       detect_tables_from_text_grid blocks pn = some t → rowsUniformB t.data = true) :=
  ⟨fun d tb pn t h => rowsUniformB_of_all t.data (detect_drawing_all_rows d tb pn t h),
   fun b pn t h => rowsUniformB_of_all t.data (detect_textgrid_all_rows b pn t h)⟩

/-- Witness for `c3_grid_detector_tables_uniform` at the concrete grid and
text-grid inputs. -/
theorem c3_grid_detector_tables_uniform_witness :
    rowsUniformB [["x".data], ["x".data]] = true ∧
    rowsUniformB [["a".data, "a".data, "a".data], ["a".data, "a".data, "a".data],
      ["a".data, "a".data, "a".data]] = true :=
  ⟨c3_grid_detector_tables_uniform.1 c4_ex_drawings c4_ex_oracle 0
      ⟨0, [["x".data], ["x".data]], TType.grid, "Detected Table".data, none⟩ (by decide),
   c3_grid_detector_tables_uniform.2 c4_tg_blocks 0
      ⟨0, [["a".data, "a".data, "a".data], ["a".data, "a".data, "a".data],
           ["a".data, "a".data, "a".data]], TType.grid, "Detected Table".data, none⟩ (by decide)⟩

/-- Claim C4: every Table produced by the vector-grid detector
(`_detect_tables_from_drawing_lines`) or the text-grid detector
(`_detect_tables_from_text_grid`) has every data row with exactly as many
cells as the header row. -/
theorem c4_grid_rows_match_header :
    (∀ (drawings : List Drawing) (tb : ℚ → ℚ → ℚ → ℚ → Option (List Char)) (pn : ℕ)
       (t : TableRec), detect_tables_from_drawing_lines drawings tb pn = some t →
         dataRowsMatchHeader t = true) ∧
    (∀ (blocks : List Block) (pn : ℕ) (t : TableRec),
       detect_tables_from_text_grid blocks pn = some t → dataRowsMatchHeader t = true) :=
  ⟨fun d tb pn t h => dataRowsMatchHeader_of_all t (detect_drawing_all_rows d tb pn t h),
   fun b pn t h => dataRowsMatchHeader_of_all t (detect_textgrid_all_rows b pn t h)⟩

/-- Witness for `c4_grid_rows_match_header` at the concrete grid and text-grid
inputs. -/
theorem c4_grid_rows_match_header_witness :
    dataRowsMatchHeader
      ⟨0, [["x".data], ["x".data]], TType.grid, "Detected Table".data, none⟩ = true ∧
    dataRowsMatchHeader
      ⟨0, [["a".data, "a".data, "a".data], ["a".data, "a".data, "a".data],
           ["a".data, "a".data, "a".data]], TType.grid, "Detected Table".data, none⟩ = true :=
  ⟨c4_grid_rows_match_header.1 c4_ex_drawings c4_ex_oracle 0 _ (by decide),
   c4_grid_rows_match_header.2 c4_tg_blocks 0 _ (by decide)⟩

/-- Claim C10: every Table appended by any of the four detectors has at least
two rows (header plus at least one data row), so the empty-table branch of
`generate_professional_table` (`not data or len(data) < 2`) is unreachable
for detector-produced tables. -/
theorem c10_detector_tables_have_two_rows :
    (∀ (blocks : List Block) (pn : ℕ) (t : TableRec),
       find_stakeholder_tables blocks pn = some t →
         2 ≤ t.data.length ∧ generate_table_empty_branch t = false) ∧
    (∀ (blocks : List Block) (pn : ℕ) (t : TableRec),
       t ∈ find_technical_tables blocks pn →
         2 ≤ t.data.length ∧ generate_table_empty_branch t = false) ∧
    (∀ (drawings : List Drawing) (tb : ℚ → ℚ → ℚ → ℚ → Option (List Char)) (pn : ℕ)
       (t : TableRec), detect_tables_from_drawing_lines drawings tb pn = some t →
         2 ≤ t.data.length ∧ generate_table_empty_branch t = false) ∧
    (∀ (blocks : List Block) (pn : ℕ) (t : TableRec),
       detect_tables_from_text_grid blocks pn = some t →
         2 ≤ t.data.length ∧ generate_table_empty_branch t = false) :=
  ⟨fun b pn t h =>
      ⟨find_stakeholder_ge2 b pn t h, empty_branch_false_of_ge2 t (find_stakeholder_ge2 b pn t h)⟩,
   fun b pn t h =>
      ⟨find_technical_ge2 b pn t h, empty_branch_false_of_ge2 t (find_technical_ge2 b pn t h)⟩,
   fun d tb pn t h =>
      ⟨detect_drawing_ge2 d tb pn t h, empty_branch_false_of_ge2 t (detect_drawing_ge2 d tb pn t h)⟩,
   fun b pn t h =>
      ⟨detect_textgrid_ge2 b pn t h, empty_branch_false_of_ge2 t (detect_textgrid_ge2 b pn t h)⟩⟩

/-- Witness for `c10_detector_tables_have_two_rows`: concrete runs of all four
detectors producing tables. -/
theorem c10_detector_tables_have_two_rows_witness :
    (2 ≤ ([["Stakeholder Category".data, "Primary Users".data, "Secondary Users".data],
           ["Cultural Producers".data, "artisans and musicians".data]] :
             List (List (List Char))).length ∧
      generate_table_empty_branch
        ⟨0, [["Stakeholder Category".data, "Primary Users".data, "Secondary Users".data],
             ["Cultural Producers".data, "artisans and musicians".data]], TType.stakeholder,
         "Key Stakeholders and Users".data, some 100⟩ = false) ∧
    (2 ≤ ([["Dependency Type".data, "Requirements".data],
           ["Prerequisite Features".data, "user accounts".data]] :
             List (List (List Char))).length ∧
      generate_table_empty_branch
        ⟨2, [["Dependency Type".data, "Requirements".data],
             ["Prerequisite Features".data, "user accounts".data]], TType.technical,
         "Technical Specifications".data, some 40⟩ = false) ∧
    (2 ≤ ([["x".data], ["x".data]] : List (List (List Char))).length ∧
      generate_table_empty_branch
        ⟨0, [["x".data], ["x".data]], TType.grid, "Detected Table".data, none⟩ = false) ∧
    (2 ≤ ([["a".data, "a".data, "a".data], ["a".data, "a".data, "a".data],
           ["a".data, "a".data, "a".data]] : List (List (List Char))).length ∧
      generate_table_empty_branch
        ⟨0, [["a".data, "a".data, "a".data], ["a".data, "a".data, "a".data],
             ["a".data, "a".data, "a".data]], TType.grid, "Detected Table".data, none⟩ = false) :=
  ⟨c10_detector_tables_have_two_rows.1 c3_ex_blocks 0
      ⟨0, [["Stakeholder Category".data, "Primary Users".data, "Secondary Users".data],
           ["Cultural Producers".data, "artisans and musicians".data]], TType.stakeholder,
       "Key Stakeholders and Users".data, some 100⟩ (by decide),
   c10_detector_tables_have_two_rows.2.1 c10_tech_blocks 2
      ⟨2, [["Dependency Type".data, "Requirements".data],
           ["Prerequisite Features".data, "user accounts".data]], TType.technical,
       "Technical Specifications".data, some 40⟩ (by decide),
   c10_detector_tables_have_two_rows.2.2.1 c4_ex_drawings c4_ex_oracle 0
      ⟨0, [["x".data], ["x".data]], TType.grid, "Detected Table".data, none⟩ (by decide),
   c10_detector_tables_have_two_rows.2.2.2 c4_tg_blocks 0
      ⟨0, [["a".data, "a".data, "a".data], ["a".data, "a".data, "a".data],
           ["a".data, "a".data, "a".data]], TType.grid, "Detected Table".data, none⟩ (by decide)⟩

theorem reflowGo_length_le (rest : List ContentItem) :
    ∀ acc : List ContentItem, (reflowGo acc rest).length ≤ acc.length + rest.length := by
  induction rest with
  | nil => intro acc; simp [reflowGo]
  | cons it rest ih =>
    intro acc
    cases acc with
    | nil =>
      simp only [reflowGo, List.length_nil, List.length_cons]
      exact Nat.le_trans (ih _) (by simp; omega)
    | cons prev acc' =>
      simp only [reflowGo, List.length_cons]
      split
      · split
        · exact Nat.le_trans (ih _) (by simp)
        · exact Nat.le_trans (ih _) (by simp; omega)
      · exact Nat.le_trans (ih _) (by simp; omega)

theorem reflow_content_length_le (cs : List ContentItem) :
    (reflow_content cs).length ≤ cs.length := by
  by_cases h : cs.isEmpty
  · simp [reflow_content, h]
  · simpa [reflow_content, h] using reflowGo_length_le cs []

/-- Claim C1, counterexample: a page whose paragraph-like lines have only 2
distinct left-x positions (fewer than 8), yet `_reorder_lines_by_columns`
applies a two-column split and does not return the lines in (y, x) order —
the code compares the number of paragraph-like lines (positions counted with
multiplicity) against 8, not the number of distinct positions. -/
theorem c1_distinct_positions_counterexample :
    (para_x_list c1_ex_lines).dedup.length = 2 ∧
    (reorder_lines_by_columns c1_ex_lines).map (fun it => it.y0) =
      [0, 20, 40, 60, 10, 30, 50, 70] ∧
    (pySortBy itemLeYX c1_ex_lines).map (fun it => it.y0) =
      [0, 10, 20, 30, 40, 50, 60, 70] ∧
    reorder_lines_by_columns c1_ex_lines ≠ pySortBy itemLeYX c1_ex_lines := by
  decide

/-- Claim C1, amended: for every page whose paragraph-like lines contribute
fewer than 8 left-x positions counted with multiplicity (i.e. fewer than 8
paragraph-like lines), `_reorder_lines_by_columns` returns the page's lines
sorted by (y, x), with no two-column split applied. -/
theorem c1_reorder_single_column_by_line_count (lines : List ContentItem)
    (h : (para_x_list lines).length < 8) :
    reorder_lines_by_columns lines = pySortBy itemLeYX lines := by
  cases lines with
  | nil => rfl
  | cons a t =>
    simp only [reorder_lines_by_columns, List.isEmpty_cons, Bool.false_eq_true,
      if_false]
    rw [if_pos h]

/-- Witness for `c1_reorder_single_column_by_line_count` at a concrete
two-line page. -/
theorem c1_reorder_single_column_witness :
    reorder_lines_by_columns c1_small_lines = pySortBy itemLeYX c1_small_lines :=
  c1_reorder_single_column_by_line_count c1_small_lines (by decide)

/-- Claim C6, counterexample: `reflow_content` is not idempotent. On the
three paragraph lines "Hello" / "-" / "world" (same page) the first pass
merges "-" with "world" into "world" (the hyphen rule strips the bare hyphen),
leaving ["Hello", "world"]; the second pass then merges this pair (lowercase
continuation rule), so the second application changes the item count. -/
theorem c6_reflow_not_idempotent_counterexample :
    (reflow_content c6_ex_lines).length = 2 ∧
    (reflow_content (reflow_content c6_ex_lines)).length = 1 := by
  decide

/-- Claim C6, amended: a second application of `reflow_content` may perform
further merges (it never splits), so the item count is monotonically
non-increasing: the second pass yields at most as many items as the first. -/
theorem c6_reflow_second_pass_nonincreasing (cs : List ContentItem) :
    (reflow_content (reflow_content cs)).length ≤ (reflow_content cs).length :=
  reflow_content_length_le (reflow_content cs)

/-- Claim C7: two consecutive same-page paragraph lines "Integration-" and
"testing is required." are merged by the reflow pass into the single
paragraph "Integrationtesting is required." — trailing hyphen stripped,
texts concatenated with no space (all other fields come from the first line). -/
theorem c7_hyphen_merge_scenario :
    reflow_content c7_ex_lines =
      [⟨"Integrationtesting is required.".data, 0, TextRole.paragraph, 12, false, 72, 100⟩] := by
  decide

/-- Claim C9: `classify_text_type` is a pure function of (text, font size,
bold flag) that evaluates the specification's five rules in order with first
match winning: (1) font ≥ 16 or bold with a top-level keyword → main_title;
(2) the numbered-heading patterns → section_header; (3) the three-part
numbering pattern → subsection_header; (4) bold, length < 100, no trailing
period → bold_header; (5) default paragraph. -/
theorem c9_classifier_first_match_order :
    ∀ (text : List Char) (font_size : ℚ) (is_bold : Bool),
      classify_text_type text font_size is_bold =
        classify_text_type_spec text font_size is_bold :=
  fun _ _ _ => rfl

/-- Claim C5: the watermark flag of every extracted image is set iff its hash
recurrence is at least 3 and at least max(3, 30% of the page count), and it is
partially transparent (mean alpha set and < 220) or of medium area (ratio in
[0.03, 0.6]); an image with recurrence below 3 is never flagged; and the
5-of-10-pages / alpha-180 / area-0.1 scenario is flagged. -/
theorem c5_watermark_flag_iff :
    (∀ (num_pages : ℕ) (imgs : List TempImage) (img : TempImage),
      img ∈ imgs → img.is_watermark = false →
      ((flag_watermark_one num_pages imgs img).is_watermark = true ↔
        (3 ≤ hash_count imgs img.sha1 ∧
         max 3 (3 * num_pages / 10) ≤ hash_count imgs img.sha1 ∧
         ((img.alpha_mean.isSome = true ∧ img.alpha_mean.getD 0 < 220) ∨
          ((3/100 : ℚ) ≤ img.area_ratio ∧ img.area_ratio ≤ 6/10))))) ∧
    (∀ (num_pages : ℕ) (imgs : List TempImage) (img : TempImage),
      img ∈ imgs → img.is_watermark = false → hash_count imgs img.sha1 < 3 →
      (flag_watermark_one num_pages imgs img).is_watermark = false) ∧
    (flag_watermarks 10 c5_ex_images).map (fun i => i.is_watermark) =
      [true, true, true, true, true] := by
  refine ⟨?_, ?_, by decide⟩
  · intro n imgs img _hmem hflag
    cases halpha : img.alpha_mean with
    | none =>
      simp [flag_watermark_one, halpha, hflag, decide_eq_true_eq,
        Bool.and_eq_true, Bool.or_eq_true, apply_ite (fun i => TempImage.is_watermark i)]
      tauto
    | some a =>
      simp [flag_watermark_one, halpha, hflag, decide_eq_true_eq,
        Bool.and_eq_true, Bool.or_eq_true, apply_ite (fun i => TempImage.is_watermark i)]
      tauto
  · intro n imgs img _hmem hflag hrep
    have h3 : ¬ (3 ≤ hash_count imgs img.sha1) := Nat.not_le.mpr hrep
    simp [flag_watermark_one, hflag, h3]

/-- Witness for `c5_watermark_flag_iff`: the flag equivalence instantiated at
the first image of the concrete scenario population. -/
theorem c5_watermark_flag_witness :
    (flag_watermark_one 10 c5_ex_images ⟨0, "w".data, some 180, 1/10, false⟩).is_watermark = true ↔
      (3 ≤ hash_count c5_ex_images "w".data ∧
       max 3 (3 * 10 / 10) ≤ hash_count c5_ex_images "w".data ∧
       (((some (180:ℚ)).isSome = true ∧ (some (180:ℚ)).getD 0 < 220) ∨
        ((3/100 : ℚ) ≤ 1/10 ∧ (1/10 : ℚ) ≤ 6/10))) :=
  c5_watermark_flag_iff.1 10 c5_ex_images ⟨0, "w".data, some 180, 1/10, false⟩
    (by decide) rfl

theorem run_page_detection_mask (p : PageStrategyRuns) :
    run_page_detection (maskGridErrors p) = run_page_detection p := by
  obtain ⟨s, t, g, x⟩ := p
  cases s <;> cases t <;> cases g <;> cases x <;> rfl

theorem detect_tables_advanced_mask (pages : List PageStrategyRuns) :
    detect_tables_advanced (pages.map maskGridErrors) = detect_tables_advanced pages := by
  induction pages with
  | nil => rfl
  | cons p rest ih =>
    simp only [List.map_cons, detect_tables_advanced, run_page_detection_mask, ih]

theorem detect_ok_of_keyword_ok (pages : List PageStrategyRuns)
    (h : ∀ p ∈ pages, exceptIsOk p.stakeholder = true ∧ exceptIsOk p.technical = true) :
    exceptIsOk (detect_tables_advanced pages) = true := by
  induction pages with
  | nil => rfl
  | cons p rest ih =>
    obtain ⟨hs, ht⟩ := h p (List.mem_cons_self p rest)
    have hr := ih (fun q hq => h q (List.mem_cons_of_mem _ hq))
    cases hse : p.stakeholder with
    | error e => simp [exceptIsOk, hse] at hs
    | ok t1 =>
      cases hte : p.technical with
      | error e => simp [exceptIsOk, hte] at ht
      | ok t2 =>
        cases hd : detect_tables_advanced rest with
        | error e => simp [hd, exceptIsOk] at hr
        | ok ts' =>
          simp [detect_tables_advanced, run_page_detection, hse, hte, hd, exceptIsOk]

/-- Claim C2, counterexample: only the two grid strategies are wrapped in
`try/except`.  If the keyword-pattern stakeholder strategy raises on the first
page, `detect_tables_advanced` propagates the exception: the remaining
strategies of that page and the whole second page (whose grid strategy would
have found a table) never run. -/
theorem c2_keyword_failure_propagates_counterexample :
    detect_tables_advanced [c2_bad_page, c2_ok_page] = .error "stakeholder failure" := rfl

/-- Claim C2, amended: per-page failures are recovered locally only for the
vector-grid and text-grid strategies: as long as the keyword strategies do not
raise, `detect_tables_advanced` raises no exception, and a failing grid /
text-grid strategy contributes exactly the same as a successful run producing
no tables (other strategies and pages unaffected); an exception from a
keyword-pattern strategy, by contrast, propagates. -/
theorem c2_grid_failures_recovered_locally (pages : List PageStrategyRuns)
    (h : ∀ p ∈ pages, exceptIsOk p.stakeholder = true ∧ exceptIsOk p.technical = true) :
    exceptIsOk (detect_tables_advanced pages) = true ∧
    detect_tables_advanced (pages.map maskGridErrors) = detect_tables_advanced pages :=
  ⟨detect_ok_of_keyword_ok pages h, detect_tables_advanced_mask pages⟩

/-- Witness for `c2_grid_failures_recovered_locally`: a single page on which
both grid strategies raise. -/
theorem c2_grid_failures_recovered_witness :
    exceptIsOk (detect_tables_advanced [c2_grid_fail_page]) = true ∧
    detect_tables_advanced ([c2_grid_fail_page].map maskGridErrors) =
      detect_tables_advanced [c2_grid_fail_page] :=
  c2_grid_failures_recovered_locally [c2_grid_fail_page] (by decide)

set_option maxRecDepth 4000 in
/-- Claim C8: the list nesting level of a marker line is
`floor((x0 - 36) / 24)`, clamped to 0 whenever `x0 ≤ 36` (and 0 for a missing
x0); in particular x0 = 40 gives level 0, and two bullet lines "• First item"
and "• Second item" at x0 = 40 following a section title yield one unordered
list with exactly two items and no nested or ordered list. -/
theorem c8_indent_level_and_flat_list :
    (∀ x : ℚ, indent_level_from_x (some x) =
      if x ≤ 36 then 0 else ((x - 36) / 24).floor) ∧
    indent_level_from_x none = 0 ∧
    indent_level_from_x (some 40) = 0 ∧
    (let out := (build_structured_content [] [] c8_ex_items).1
     countSub "<ul>".data out = 1 ∧ countSub "</ul>".data out = 1 ∧
     countSub "<li>".data out = 2 ∧ countSub "<ol>".data out = 0) :=
  ⟨fun _ => rfl, rfl, by decide, by decide⟩
